import Mathlib

/-!
# Verification of the rileyviewer Python client

Shallow embedding of `src/python/src/rileyviewer/viewer.py`,
`adapters.py` and `exceptions.py`.  Effectful primitives (the network,
the filesystem, `time.sleep`) are modelled by passing their observable
outcomes in as explicit inputs, and traces record the externally visible
actions (number of HTTP attempts, sleeps performed, whether the process
launcher was invoked, how often the health probe was polled).
-/

namespace RileyViewer

/-! ## Python values

Minimal model of the Python/JSON values the client manipulates:
`None`, strings, and string-keyed dicts (JSON objects). -/

inductive PyValue where
  | pyNone : PyValue
  | str (s : String) : PyValue
  | dict (entries : List (String × PyValue)) : PyValue

/-- Python truthiness (`if x:`) for the values above: `None` is falsy,
a string is truthy iff nonempty, a dict is truthy iff nonempty. -/
def pyTruthy : PyValue → Bool
  | .pyNone => false
  | .str s => !s.isEmpty
  | .dict d => !d.isEmpty

/-- Python `x == y` where `y` is a `str`: only a `str` with equal
contents compares equal; `None == s` and `dict == s` are `False`. -/
def PyValue.pyEqStr : PyValue → String → Bool
  | .str s, t => s == t
  | _, _ => false

/-! ## Python exception classes

The classes that can flow through this client, with their documented
base-class (`__mro__`) chains: `JSONDecodeError` and
`UnicodeDecodeError` derive from `ValueError`; `KeyError` from
`LookupError`; `urllib.error.HTTPError` from `URLError`, which itself
derives from `OSError`; `TimeoutError` from `OSError`; and the
library's own exceptions from `exceptions.py` derive from
`RileyViewerError`. -/

inductive PyExcClass where
  | cException
  | cValueError
  | cUnicodeDecodeError
  | cJSONDecodeError
  | cLookupError
  | cKeyError
  | cTypeError
  | cOSError
  | cURLError
  | cHTTPError
  | cTimeoutError
  | cRileyViewerError
  | cServerConnectionError
  | cServerStartError
  | cCLINotFoundError
  | cSerializationError
  | cUnsupportedPlotTypeError
  deriving DecidableEq

/-- The class itself followed by all its base classes, per the Python
exception hierarchy (everything derives from `Exception`). -/
def PyExcClass.ancestors : PyExcClass → List PyExcClass
  | .cException => [.cException]
  | .cValueError => [.cValueError, .cException]
  | .cUnicodeDecodeError => [.cUnicodeDecodeError, .cValueError, .cException]
  | .cJSONDecodeError => [.cJSONDecodeError, .cValueError, .cException]
  | .cLookupError => [.cLookupError, .cException]
  | .cKeyError => [.cKeyError, .cLookupError, .cException]
  | .cTypeError => [.cTypeError, .cException]
  | .cOSError => [.cOSError, .cException]
  | .cURLError => [.cURLError, .cOSError, .cException]
  | .cHTTPError => [.cHTTPError, .cURLError, .cOSError, .cException]
  | .cTimeoutError => [.cTimeoutError, .cOSError, .cException]
  | .cRileyViewerError => [.cRileyViewerError, .cException]
  | .cServerConnectionError => [.cServerConnectionError, .cRileyViewerError, .cException]
  | .cServerStartError => [.cServerStartError, .cRileyViewerError, .cException]
  | .cCLINotFoundError => [.cCLINotFoundError, .cRileyViewerError, .cException]
  | .cSerializationError => [.cSerializationError, .cRileyViewerError, .cException]
  | .cUnsupportedPlotTypeError =>
      [.cUnsupportedPlotTypeError, .cSerializationError, .cRileyViewerError, .cException]

/-- Python `isinstance(e, c)` for exception classes: `c` is among the
ancestors of `e`'s class. -/
def isInstanceOf (cls target : PyExcClass) : Bool :=
  target ∈ cls.ancestors

/-! ## Exception values -/

/-- A raised Python exception, as observable by a caller: its class plus
the payload the client code inspects (`e.code`/`e.reason` of an
`HTTPError`, the message of a library error, the missing key of a
`KeyError`). -/
inductive PyExc where
  | httpError (code : Nat) (reason : String)
  | urlError
  | timeoutError
  | osError
  | unicodeDecodeError
  | jsonDecodeError
  | keyError (key : String)
  | typeError
  | serverConnectionError (msg : String)
  | serverStartError (msg : String)
  | cliNotFoundError
  | unsupportedPlotType (typeName : String)
  deriving DecidableEq

/-- The Python class of each exception value. -/
def PyExc.cls : PyExc → PyExcClass
  | .httpError _ _ => .cHTTPError
  | .urlError => .cURLError
  | .timeoutError => .cTimeoutError
  | .osError => .cOSError
  | .unicodeDecodeError => .cUnicodeDecodeError
  | .jsonDecodeError => .cJSONDecodeError
  | .keyError _ => .cKeyError
  | .typeError => .cTypeError
  | .serverConnectionError _ => .cServerConnectionError
  | .serverStartError _ => .cServerStartError
  | .cliNotFoundError => .cCLINotFoundError
  | .unsupportedPlotType _ => .cUnsupportedPlotTypeError

/-- Whether an exception belongs to the library's own error taxonomy
(`isinstance(e, RileyViewerError)`, the base class in `exceptions.py`). -/
def PyExc.isRileyViewerError (e : PyExc) : Bool :=
  isInstanceOf e.cls .cRileyViewerError

/-- Simplified `str(e)`, used only to interpolate the last underlying
cause into the retry-exhaustion message (`f"...: {last_error}"`). -/
def PyExc.pyStr : PyExc → String
  | .httpError code reason => "HTTP Error " ++ toString code ++ ": " ++ reason
  | .urlError => "<urlopen error>"
  | .timeoutError => "timed out"
  | .osError => "os error"
  | .unicodeDecodeError => "unicode decode error"
  | .jsonDecodeError => "json decode error"
  | .keyError key => "KeyError: " ++ key
  | .typeError => "type error"
  | .serverConnectionError msg => msg
  | .serverStartError msg => msg
  | .cliNotFoundError => "rileyviewer CLI not found"
  | .unsupportedPlotType t => "Don't know how to send object of type " ++ t

/-- Rendering of `str(last_error)` with Python's `"None"` for an absent cause. -/
def pyStrOpt : Option PyExc → String
  | none => "None"
  | some e => e.pyStr

/-! ## ServerState Store (`_read_server_state`, viewer.py lines 33-41)

The state of the filesystem is abstracted to the observable outcome of
the probed primitives: whether `server.json` exists, and what the body
of the `try` block — `json.loads(state_file.read_text())` — does on its
contents.  `read_text()` raises an `OSError` subclass on I/O failure
and a `UnicodeDecodeError` when the file's bytes are not valid UTF-8;
`json.loads` raises `JSONDecodeError` on malformed JSON and otherwise
returns the parsed value. -/

inductive StateFileFs where
  | missing
  | tryRaises (e : PyExc)
  | tryReturns (v : PyValue)

/-- Function `_read_server_state()`.  Python:
```
state_file = _state_dir() / "server.json"
if state_file.exists():
    try:
        return json.loads(state_file.read_text())
    except (json.JSONDecodeError, OSError):
        pass
return None
```
The `except` clause catches an exception `e` iff
`isinstance(e, json.JSONDecodeError) or isinstance(e, OSError)`;
anything else raised in the `try` block propagates to the caller.
Returns `.ok .pyNone` for Python's `return None`. -/
def _read_server_state (fs : StateFileFs) : Except PyExc PyValue :=
  match fs with
  | .missing => .ok .pyNone
  | .tryRaises e =>
      if isInstanceOf e.cls .cJSONDecodeError || isInstanceOf e.cls .cOSError then
        .ok .pyNone
      else
        .error e
  | .tryReturns v => .ok v

/-! ## Publish Client (`Viewer._http_publish`, viewer.py lines 194-230)

The transport is abstracted to a function from the attempt index to the
observable outcome of that attempt's
`urlopen(req, timeout=5)` / `json.loads(resp.read().decode("utf-8"))`:
either `urlopen` raises (`HTTPError` for a non-2xx status, `URLError` /
`TimeoutError` / `OSError` for connection-level failures), or the
response body is not valid JSON (`json.loads` raises
`JSONDecodeError`), or it parses to a value. -/

inductive AttemptOutcome where
  | httpError (code : Nat) (reason : String)
  | urlError
  | timeoutError
  | osError
  | badJson
  | body (v : PyValue)

/-- Python subscript `result["id"]` as executed on the parsed response:
a dict yields the entry or raises `KeyError`; subscripting a non-dict
JSON value (string, `None`) with a string key raises `TypeError`. -/
def PyValue.subscript : PyValue → String → Except PyExc PyValue
  | .dict d, k =>
      match d.lookup k with
      | some v => .ok v
      | none => .error (.keyError k)
  | _, _ => .error (.typeError)

/-- The `try` block of one loop iteration:
`with urlopen(req, timeout=5) as resp:` then
`result = json.loads(resp.read().decode("utf-8"))` then
`return result["id"]`. -/
def tryBlock : AttemptOutcome → Except PyExc PyValue
  | .httpError code reason => .error (.httpError code reason)
  | .urlError => .error .urlError
  | .timeoutError => .error .timeoutError
  | .osError => .error .osError
  | .badJson => .error .jsonDecodeError
  | .body v => v.subscript "id"

/-- Observable trace of one `_http_publish` call: its result (the
returned id, or the exception it raises), the number of `urlopen`
attempts performed, and the `time.sleep` delays in milliseconds, in
order (the source sleeps `0.1 * (2 ** attempt)` seconds, modelled as
`100 * 2 ^ attempt` ms). -/
structure PublishTrace where
  result : Except PyExc PyValue
  attempts : Nat
  sleeps : List Nat

/-- The `for attempt in range(max_retries)` loop of `_http_publish`,
with `remaining = max_retries - attempt` iterations left.  Python:
```
for attempt in range(max_retries):
    try:
        with urllib.request.urlopen(req, timeout=5) as resp:
            result = json.loads(resp.read().decode("utf-8"))
            return result["id"]
    except urllib.error.HTTPError as e:
        if 400 <= e.code < 500:
            raise ServerConnectionError(
                f"Server rejected request: HTTP {e.code} {e.reason}") from e
        last_error = e
    except (urllib.error.URLError, TimeoutError, OSError) as e:
        last_error = e
    if attempt < max_retries - 1:
        time.sleep(0.1 * (2 ** attempt))
raise ServerConnectionError(
    f"Failed to publish after {max_retries} attempts: {last_error}") from last_error
```
The first `except` clause receives exactly the `HTTPError` outcomes;
connection-level failures hit the second clause (`HTTPError` would also
satisfy it, being a `URLError` subclass, but the first clause shadows
it); a `KeyError` or `JSONDecodeError` raised inside the `try` block is
an instance of neither `HTTPError` nor `URLError`/`TimeoutError`/
`OSError`, so it propagates out of the loop uncaught. -/
def publishLoop (t : Nat → AttemptOutcome) (maxRetries : Nat) :
    Nat → Nat → Option PyExc → PublishTrace
  | 0, attempt, lastError =>
      { result := .error (.serverConnectionError
          ("Failed to publish after " ++ toString maxRetries ++ " attempts: "
            ++ pyStrOpt lastError)),
        attempts := attempt, sleeps := [] }
  | remaining + 1, attempt, _lastError =>
      match tryBlock (t attempt) with
      | .ok v => { result := .ok v, attempts := attempt + 1, sleeps := [] }
      | .error e =>
        match e with
        | .httpError code reason =>
            if 400 ≤ code ∧ code < 500 then
              { result := .error (.serverConnectionError
                  ("Server rejected request: HTTP " ++ toString code ++ " " ++ reason)),
                attempts := attempt + 1, sleeps := [] }
            else
              let rest := publishLoop t maxRetries remaining (attempt + 1)
                (some (.httpError code reason))
              { rest with sleeps :=
                  (if attempt < maxRetries - 1 then [100 * 2 ^ attempt] else [])
                    ++ rest.sleeps }
        | .urlError =>
            let rest := publishLoop t maxRetries remaining (attempt + 1) (some .urlError)
            { rest with sleeps :=
                (if attempt < maxRetries - 1 then [100 * 2 ^ attempt] else [])
                  ++ rest.sleeps }
        | .timeoutError =>
            let rest := publishLoop t maxRetries remaining (attempt + 1) (some .timeoutError)
            { rest with sleeps :=
                (if attempt < maxRetries - 1 then [100 * 2 ^ attempt] else [])
                  ++ rest.sleeps }
        | .osError =>
            let rest := publishLoop t maxRetries remaining (attempt + 1) (some .osError)
            { rest with sleeps :=
                (if attempt < maxRetries - 1 then [100 * 2 ^ attempt] else [])
                  ++ rest.sleeps }
        | e' => { result := .error e', attempts := attempt + 1, sleeps := [] }

/-- Request-body construction of `_http_publish` (viewer.py lines
197-199):
```
payload = {"content": content}
if self._token:
    payload["token"] = self._token
```
The guard is Python truthiness of `self._token`, so `None` and the
empty string both omit the `"token"` field.  The result is the dict's
entries in insertion order. -/
def buildPayload (token : PyValue) (content : PyValue) : List (String × PyValue) :=
  if pyTruthy token then [("content", content), ("token", token)]
  else [("content", content)]

/-- One `_http_publish(content, max_retries)` call on a viewer whose
`self._token` is `token`: the request payload it builds, and the trace
of the retry loop over the given transport. -/
structure PublishCall where
  payload : List (String × PyValue)
  trace : PublishTrace

def _http_publish (token : PyValue) (content : PyValue)
    (t : Nat → AttemptOutcome) (maxRetries : Nat := 3) : PublishCall :=
  { payload := buildPayload token content,
    trace := publishLoop t maxRetries maxRetries 0 none }

/-! ## Session Establisher (`Viewer.__init__`, viewer.py lines 139-184)

The environment provides the outcomes of the effectful collaborators:
the initial `_check_server_running` probe, the `_spawn_server` result
(if invoked), the result of the i-th `_check_server_running` poll
inside the wait loop, and the state file for `_read_server_state`. -/

structure InitEnv where
  initialAlive : Bool
  spawnOk : Bool
  pollAlive : Nat → Bool
  fs : StateFileFs

/-- Observable trace of one `Viewer.__init__` call: the resulting
`self._token` (or the exception `__init__` raises), whether
`_spawn_server` was invoked, how many times the wait loop polled
`_check_server_running`, and the total wait-loop sleep in ms
(one `time.sleep(0.1)` before each poll). -/
structure InitTrace where
  result : Except PyExc PyValue
  spawnInvoked : Bool
  loopPolls : Nat
  loopSleepMs : Nat

/-- The state-adoption fragment shared by viewer.py lines 161-163 and
182-184:
```
state = _read_server_state()
if state and state.get("addr") == f"{self._host}:{self._port}":
    self._token = state.get("token")
```
`state.get(k)` is the dict method (an absent key yields `None`);
`.get` on a non-dict value (a state file holding a bare JSON string)
raises at runtime, modelled here by the generic `typeError`. -/
def PyValue.getMethod : PyValue → String → Except PyExc PyValue
  | .dict d, k => .ok ((d.lookup k).getD .pyNone)
  | _, _ => .error .typeError

def adoptFromState (host : String) (port : Nat) (token : PyValue)
    (fs : StateFileFs) : Except PyExc PyValue := do
  let state ← _read_server_state fs
  if pyTruthy state then
    let addrVal ← state.getMethod "addr"
    if addrVal.pyEqStr (host ++ ":" ++ toString port) then
      state.getMethod "token"
    else
      pure token
  else
    pure token

/-- The wait loop (viewer.py lines 171-174):
```
for _ in range(50):  # 5 seconds max
    time.sleep(0.1)
    if _check_server_running(self._host, self._port):
        break
else:
    raise ServerStartError(...)
```
Returns the number of polls performed and whether the loop broke out
on a successful probe (`false` means the `for`/`else` branch runs).
`i` is the index of the next poll. -/
def waitLoop (alive : Nat → Bool) : Nat → Nat → Nat × Bool
  | 0, _ => (0, false)
  | fuel + 1, i =>
      if alive i then (1, true)
      else
        let r := waitLoop alive fuel (i + 1)
        (r.1 + 1, r.2)

/-- Session establishment in `Viewer.__init__` (lines 157-184).
Python:
```
if _check_server_running(self._host, self._port):
    if not self._token:
        state = _read_server_state()
        if state and state.get("addr") == f"{self._host}:{self._port}":
            self._token = state.get("token")
else:
    if not _spawn_server(...):
        raise CLINotFoundError()
    for _ in range(50):
        time.sleep(0.1)
        if _check_server_running(self._host, self._port):
            break
    else:
        raise ServerStartError(
            f"Server failed to start on {self._host}:{self._port} within 5 seconds. "
            "Check that the rileyviewer CLI is installed and working.")
    state = _read_server_state()
    if state and state.get("addr") == f"{self._host}:{self._port}":
        self._token = state.get("token")
```
-/
def viewerInit (host : String) (port : Nat) (token : PyValue)
    (env : InitEnv) : InitTrace :=
  if env.initialAlive then
    if !pyTruthy token then
      match adoptFromState host port token env.fs with
      | .ok tk => ⟨.ok tk, false, 0, 0⟩
      | .error e => ⟨.error e, false, 0, 0⟩
    else ⟨.ok token, false, 0, 0⟩
  else
    if !env.spawnOk then ⟨.error .cliNotFoundError, true, 0, 0⟩
    else
      let r := waitLoop env.pollAlive 50 0
      if r.2 then
        match adoptFromState host port token env.fs with
        | .ok tk => ⟨.ok tk, true, r.1, 100 * r.1⟩
        | .error e => ⟨.error e, true, r.1, 100 * r.1⟩
      else
        ⟨.error (.serverStartError
            ("Server failed to start on " ++ host ++ ":" ++ toString port
              ++ " within 5 seconds. Check that the rileyviewer CLI is installed and working.")),
          true, r.1, 100 * r.1⟩

/-! ## Content Dispatcher (`adapters.send_object_http`, adapters.py
lines 78-126, and the `Viewer.send_*` helpers, viewer.py lines 256-275)

A caller-supplied object is abstracted to its observable capabilities:
the results of the attribute probes the dispatcher performs, plus what
each capability method returns when invoked. -/

inductive MatplotlibFormat where
  | svg
  | png
  deriving DecidableEq

/-- A matplotlib-figure-like value, abstracted to what
`fig.savefig(buf, format=format)` writes into the buffer:
`buf.getvalue().decode("utf-8")` for format `"svg"`, the raw bytes
(`buf.getvalue()`, each in 0..255) for format `"png"`. -/
structure FigModel where
  savefigSvgText : String
  savefigPngBytes : List Nat

/-- A caller-supplied plot object, abstracted to the capability probes
of `send_object_http`:
`_is_matplotlib_animation(obj)` and `obj.to_jshtml()`;
`_extract_figure_from_axes_array(obj)`;
`getattr(obj, "figure", None)`;
`hasattr(obj, "savefig")` with the object's own rendering;
`obj.__class__.__module__`;
`hasattr(obj, "to_json")` / `hasattr(obj, "to_plotly_json")` /
`hasattr(obj, "to_dict")` with `obj.to_json()`,
`json.dumps(obj.to_plotly_json())`, `json.dumps(obj.to_dict())`;
`hasattr(obj, "_repr_html_")` with its result; and
`type(obj).__name__` for the failure message. -/
structure PyObjModel where
  isAnimation : Bool
  toJshtml : String
  axesArrayFigure : Option FigModel
  figureAttr : Option FigModel
  hasSavefig : Bool
  selfFig : FigModel
  moduleName : String
  hasToJson : Bool
  toJson : String
  hasToPlotlyJson : Bool
  toPlotlyJsonDumped : String
  hasToDict : Bool
  toDictDumped : String
  hasReprHtml : Bool
  reprHtml : String
  typeName : String

/-- The wire payload kinds, with the data string each carries
(`Png` carries base64 text, the others carry their text verbatim). -/
inductive ContentPayload where
  | png (data : String)
  | svg (data : String)
  | plotly (data : String)
  | vega (data : String)
  | html (data : String)
  deriving DecidableEq

/-- Standard base64 (RFC 4648) of a byte list, as performed by
`base64.b64encode(data).decode("ascii")` in `Viewer.send_png_bytes`. -/
def b64Char (n : Nat) : Char :=
  "ABCDEFGHIJKLMNOPQRSTUVWXYZabcdefghijklmnopqrstuvwxyz0123456789+/".toList.getD n 'A'

def base64Encode : List Nat → String
  | [] => ""
  | [b1] =>
      String.mk [b64Char (b1 / 4), b64Char (b1 % 4 * 16)] ++ "=="
  | [b1, b2] =>
      String.mk [b64Char (b1 / 4), b64Char (b1 % 4 * 16 + b2 / 16),
        b64Char (b2 % 16 * 4)] ++ "="
  | b1 :: b2 :: b3 :: rest =>
      String.mk [b64Char (b1 / 4), b64Char (b1 % 4 * 16 + b2 / 16),
        b64Char (b2 % 16 * 4 + b3 / 64), b64Char (b3 % 64)]
        ++ base64Encode rest

/-- Method `Viewer.send_png_bytes`: base64-encode, publish as kind `Png`. -/
def send_png_bytes (data : List Nat) : ContentPayload := .png (base64Encode data)

/-- Method `Viewer.send_svg`. -/
def send_svg (s : String) : ContentPayload := .svg s

/-- Method `Viewer.send_plotly_json`. -/
def send_plotly_json (s : String) : ContentPayload := .plotly s

/-- Method `Viewer.send_vega_json`. -/
def send_vega_json (s : String) : ContentPayload := .vega s

/-- Method `Viewer.send_html`. -/
def send_html (s : String) : ContentPayload := .html s

/-- The `{"type": ..., "data": ...}` content dict each `send_*` method
passes to `_http_publish` (viewer.py lines 256-275). -/
def contentDict : ContentPayload → PyValue
  | .png d => .dict [("type", .str "Png"), ("data", .str d)]
  | .svg d => .dict [("type", .str "Svg"), ("data", .str d)]
  | .plotly d => .dict [("type", .str "Plotly"), ("data", .str d)]
  | .vega d => .dict [("type", .str "Vega"), ("data", .str d)]
  | .html d => .dict [("type", .str "Html"), ("data", .str d)]

/-- Function `adapters._send_matplotlib_http(viewer, fig, format)`:
```
buf = io.BytesIO()
fig.savefig(buf, format=format)
plt.close(fig)
if format == "svg":
    return viewer.send_svg(buf.getvalue().decode("utf-8"))
else:
    return viewer.send_png_bytes(buf.getvalue())
```
(the `plt.close` side effect has no bearing on the payload). -/
def _send_matplotlib_http (fig : FigModel) : MatplotlibFormat → ContentPayload
  | .svg => send_svg fig.savefigSvgText
  | .png => send_png_bytes fig.savefigPngBytes

/-- Function `adapters._send_matplotlib_animation_http(viewer, anim)`:
`viewer.send_html(anim.to_jshtml())`. -/
def _send_matplotlib_animation_http (obj : PyObjModel) : ContentPayload :=
  send_html obj.toJshtml

/-- Function `adapters.send_object_http(viewer, obj, format)`, returning the
`ContentPayload` handed to `_http_publish`, or the exception raised.
Python:
```
fmt = format or getattr(viewer, "_default_format", "svg")
if _is_matplotlib_animation(obj):
    return _send_matplotlib_animation_http(viewer, obj)
fig = _extract_figure_from_axes_array(obj)
if fig is not None:
    return _send_matplotlib_http(viewer, fig, fmt)
fig = getattr(obj, "figure", None)
if fig is not None:
    return _send_matplotlib_http(viewer, fig, fmt)
if hasattr(obj, "savefig"):
    return _send_matplotlib_http(viewer, obj, fmt)
if obj.__class__.__module__.startswith("plotly") or hasattr(obj, "to_plotly_json"):
    payload = obj.to_json() if hasattr(obj, "to_json") else json.dumps(obj.to_plotly_json())
    return viewer.send_plotly_json(payload)
if obj.__class__.__module__.startswith("altair") or hasattr(obj, "to_dict"):
    payload = obj.to_json() if hasattr(obj, "to_json") else json.dumps(obj.to_dict())
    return viewer.send_vega_json(payload)
if hasattr(obj, "_repr_html_"):
    return viewer.send_html(obj._repr_html_())
raise UnsupportedPlotTypeError(type(obj))
```
`format or default` takes the default exactly when `format` is `None`
(the two admissible strings `"svg"`/`"png"` are truthy). -/
def send_object_http (defaultFormat : MatplotlibFormat) (obj : PyObjModel)
    (format : Option MatplotlibFormat) : Except PyExc ContentPayload :=
  let fmt := format.getD defaultFormat
  if obj.isAnimation then
    .ok (_send_matplotlib_animation_http obj)
  else
    match obj.axesArrayFigure with
    | some fig => .ok (_send_matplotlib_http fig fmt)
    | none =>
      match obj.figureAttr with
      | some fig => .ok (_send_matplotlib_http fig fmt)
      | none =>
        if obj.hasSavefig then .ok (_send_matplotlib_http obj.selfFig fmt)
        else if obj.moduleName.startsWith "plotly" || obj.hasToPlotlyJson then
          .ok (send_plotly_json (if obj.hasToJson then obj.toJson else obj.toPlotlyJsonDumped))
        else if obj.moduleName.startsWith "altair" || obj.hasToDict then
          .ok (send_vega_json (if obj.hasToJson then obj.toJson else obj.toDictDumped))
        else if obj.hasReprHtml then .ok (send_html obj.reprHtml)
        else .error (.unsupportedPlotType obj.typeName)

/-! ## Auxiliary notions used to state the claims -/

/-- A retryable attempt outcome in the sense of the spec's retry
policy: a connection failure, a timeout, or a 5xx response. -/
def RetryableOutcome : AttemptOutcome → Prop
  | .urlError => True
  | .timeoutError => True
  | .osError => True
  | .httpError code _ => 500 ≤ code ∧ code < 600
  | _ => False

/-- The exception recorded in `last_error` for a retryable attempt
outcome (arbitrary on the other outcomes, which never reach
`last_error`). -/
def retryExc : AttemptOutcome → PyExc
  | .httpError code reason => .httpError code reason
  | .urlError => .urlError
  | .timeoutError => .timeoutError
  | .osError => .osError
  | .badJson => .jsonDecodeError
  | .body _ => .typeError

/-- The Python class of the exception a publish call raises (`none` if
it returns normally). -/
def PublishTrace.errCls (tr : PublishTrace) : Option PyExcClass :=
  match tr.result with
  | .error e => some e.cls
  | .ok _ => none

/-! ## Helper lemmas -/

lemma lookup_some_ne_nil {d : List (String × PyValue)} {k : String} {v : PyValue}
    (h : d.lookup k = some v) : d ≠ [] := by
  intro hnil
  subst hnil
  simp [List.lookup] at h

lemma isEmpty_false_of_lookup {d : List (String × PyValue)} {k : String} {v : PyValue}
    (h : d.lookup k = some v) : d.isEmpty = false := by
  cases d with
  | nil => exact absurd rfl (lookup_some_ne_nil h)
  | cons a l => rfl

/-- On a state file parsing to a dict whose `"addr"` entry matches the
requested address, the adoption fragment yields the dict's `"token"`
entry, whatever token was supplied. -/
lemma adoptFromState_matching (host : String) (port : Nat) (token : PyValue)
    (d : List (String × PyValue)) (tk : PyValue)
    (haddr : d.lookup "addr" = some (.str (host ++ ":" ++ toString port)))
    (htok : d.lookup "token" = some tk) :
    adoptFromState host port token (.tryReturns (.dict d)) = .ok tk := by
  simp [adoptFromState, _read_server_state, pyTruthy, isEmpty_false_of_lookup haddr,
    PyValue.getMethod, haddr, htok, PyValue.pyEqStr, Bind.bind, Except.bind]

/-- A health probe that never succeeds makes the wait loop exhaust all
its fuel. -/
lemma waitLoop_never (alive : Nat → Bool) (h : ∀ i, alive i = false) :
    ∀ fuel i, waitLoop alive fuel i = (fuel, false) := by
  intro fuel
  induction fuel with
  | zero => intro i; rfl
  | succ n ih => intro i; simp [waitLoop, h i, ih (i + 1)]

/-- One loop iteration on a retryable outcome: record the exception in
`last_error`, sleep the backoff delay if this is not the last attempt,
and continue with the next attempt. -/
lemma publishLoop_retryable_step (t : Nat → AttemptOutcome) (m r a : Nat)
    (le : Option PyExc) (h : RetryableOutcome (t a)) :
    publishLoop t m (r + 1) a le =
      { publishLoop t m r (a + 1) (some (retryExc (t a))) with
        sleeps := (if a < m - 1 then [100 * 2 ^ a] else [])
          ++ (publishLoop t m r (a + 1) (some (retryExc (t a)))).sleeps } := by
  cases h' : t a with
  | httpError code reason =>
      rw [h'] at h
      have hc : ¬(400 ≤ code ∧ code < 500) := by
        have := h.1
        omega
      simp [publishLoop, tryBlock, h', retryExc, hc]
  | urlError => simp [publishLoop, tryBlock, h', retryExc]
  | timeoutError => simp [publishLoop, tryBlock, h', retryExc]
  | osError => simp [publishLoop, tryBlock, h', retryExc]
  | badJson => rw [h'] at h; exact absurd h (by simp [RetryableOutcome])
  | body v => rw [h'] at h; exact absurd h (by simp [RetryableOutcome])

/-! ## Claims -/

/-- C3: when the initial health probe reports the server not alive and
the process launcher resolves no binary (`_spawn_server` returns
`False`), `Viewer.__init__` raises `CLINotFoundError`, and the waiting
loop never polls the health probe. -/
theorem binary_missing_fails_without_polling (host : String) (port : Nat)
    (token : PyValue) (env : InitEnv)
    (h1 : env.initialAlive = false) (h2 : env.spawnOk = false) :
    viewerInit host port token env =
      { result := .error .cliNotFoundError, spawnInvoked := true,
        loopPolls := 0, loopSleepMs := 0 } := by
  simp [viewerInit, h1, h2]

theorem binary_missing_fails_without_polling_witness :
    viewerInit "127.0.0.1" 7878 .pyNone ⟨false, false, fun _ => false, .missing⟩ =
      { result := .error .cliNotFoundError, spawnInvoked := true,
        loopPolls := 0, loopSleepMs := 0 } :=
  binary_missing_fails_without_polling "127.0.0.1" 7878 .pyNone
    ⟨false, false, fun _ => false, .missing⟩ rfl rfl

/-- C4: when the launch succeeds but the health probe never returns
healthy, the waiting loop performs exactly 50 polls with a 100ms sleep
before each (5 seconds total) and `Viewer.__init__` raises
`ServerStartError`; termination is inherent in the bounded loop. -/
theorem startup_timeout_bounded (host : String) (port : Nat)
    (token : PyValue) (env : InitEnv)
    (h1 : env.initialAlive = false) (h2 : env.spawnOk = true)
    (h3 : ∀ i, env.pollAlive i = false) :
    viewerInit host port token env =
      { result := .error (.serverStartError
          ("Server failed to start on " ++ host ++ ":" ++ toString port
            ++ " within 5 seconds. Check that the rileyviewer CLI is installed and working.")),
        spawnInvoked := true, loopPolls := 50, loopSleepMs := 5000 } := by
  simp [viewerInit, h1, h2, waitLoop_never env.pollAlive h3 50 0]

theorem startup_timeout_bounded_witness :
    viewerInit "127.0.0.1" 7878 .pyNone ⟨false, true, fun _ => false, .missing⟩ =
      { result := .error (.serverStartError
          ("Server failed to start on " ++ "127.0.0.1" ++ ":" ++ toString 7878
            ++ " within 5 seconds. Check that the rileyviewer CLI is installed and working.")),
        spawnInvoked := true, loopPolls := 50, loopSleepMs := 5000 } :=
  startup_timeout_bounded "127.0.0.1" 7878 .pyNone
    ⟨false, true, fun _ => false, .missing⟩ rfl rfl (fun _ => rfl)

/-- C5: when the initial probe reports the server alive, no token was
supplied, and the state file parses to a record whose `"addr"` matches
the requested `host:port`, `Viewer.__init__` completes normally with
the state record's token, without invoking `_spawn_server` and without
polling. -/
theorem session_adoption_ready (host : String) (port : Nat) (env : InitEnv)
    (d : List (String × PyValue)) (tk : PyValue)
    (h1 : env.initialAlive = true)
    (h2 : env.fs = .tryReturns (.dict d))
    (haddr : d.lookup "addr" = some (.str (host ++ ":" ++ toString port)))
    (htok : d.lookup "token" = some tk) :
    viewerInit host port .pyNone env =
      { result := .ok tk, spawnInvoked := false,
        loopPolls := 0, loopSleepMs := 0 } := by
  simp [viewerInit, h1, pyTruthy, h2,
    adoptFromState_matching host port .pyNone d tk haddr htok]

theorem session_adoption_ready_witness :
    viewerInit "127.0.0.1" 7878 .pyNone
      ⟨true, false, fun _ => false,
        .tryReturns (.dict [("addr", .str "127.0.0.1:7878"), ("token", .str "s3cret")])⟩ =
      { result := .ok (.str "s3cret"), spawnInvoked := false,
        loopPolls := 0, loopSleepMs := 0 } :=
  session_adoption_ready "127.0.0.1" 7878
    ⟨true, false, fun _ => false,
      .tryReturns (.dict [("addr", .str "127.0.0.1:7878"), ("token", .str "s3cret")])⟩
    [("addr", .str "127.0.0.1:7878"), ("token", .str "s3cret")] (.str "s3cret")
    rfl rfl rfl rfl

/-- C6: an object satisfying both the animation capability and the
savefig capability is dispatched by `send_object_http` through the
animation path, yielding the `Html` payload `obj.to_jshtml()`, never a
`Png` or `Svg` payload. -/
theorem animation_precedence_html (df : MatplotlibFormat) (obj : PyObjModel)
    (f : Option MatplotlibFormat)
    (h1 : obj.isAnimation = true) (_h2 : obj.hasSavefig = true) :
    send_object_http df obj f = .ok (.html obj.toJshtml) ∧
    (∀ dta, send_object_http df obj f ≠ .ok (.png dta)) ∧
    (∀ dta, send_object_http df obj f ≠ .ok (.svg dta)) := by
  have hmain : send_object_http df obj f = .ok (.html obj.toJshtml) := by
    simp [send_object_http, h1, _send_matplotlib_animation_http, send_html]
  refine ⟨hmain, ?_, ?_⟩ <;> intro dta h <;> rw [hmain] at h <;> simp at h

theorem animation_precedence_html_witness :
    send_object_http .svg
      { isAnimation := true, toJshtml := "<script>anim</script>",
        axesArrayFigure := none, figureAttr := none,
        hasSavefig := true, selfFig := ⟨"<svg/>", [137, 80]⟩,
        moduleName := "matplotlib.animation",
        hasToJson := false, toJson := "",
        hasToPlotlyJson := false, toPlotlyJsonDumped := "",
        hasToDict := false, toDictDumped := "",
        hasReprHtml := false, reprHtml := "",
        typeName := "FuncAnimation" } none =
      .ok (.html "<script>anim</script>") :=
  (animation_precedence_html .svg
    { isAnimation := true, toJshtml := "<script>anim</script>",
      axesArrayFigure := none, figureAttr := none,
      hasSavefig := true, selfFig := ⟨"<svg/>", [137, 80]⟩,
      moduleName := "matplotlib.animation",
      hasToJson := false, toJson := "",
      hasToPlotlyJson := false, toPlotlyJsonDumped := "",
      hasToDict := false, toDictDumped := "",
      hasReprHtml := false, reprHtml := "",
      typeName := "FuncAnimation" } none rfl rfl).1

/-- C9 (counterexample): a session token that is present (not `None`)
but equal to the empty string yields a request body with no `"token"`
field at all, refuting "for every session whose token is present (not
None) the body carries that token". -/
theorem token_present_not_carried_counterexample :
    PyValue.str "" ≠ PyValue.pyNone ∧
    (_http_publish (.str "") (.str "c") (fun _ => .osError)).payload =
      [("content", .str "c")] ∧
    (_http_publish (.str "") (.str "c") (fun _ => .osError)).payload.lookup "token" =
      none := by
  refine ⟨?_, rfl, rfl⟩
  intro h
  exact PyValue.noConfusion h

/-- C9 (amended): the request body built by `_http_publish` carries the
session token in its `"token"` field exactly when the token is truthy
(non-`None` and nonempty); otherwise — including the empty string — the
field is omitted. -/
theorem payload_token_iff_truthy (token content : PyValue)
    (t : Nat → AttemptOutcome) (m : Nat) :
    (_http_publish token content t m).payload.lookup "token" =
      (if pyTruthy token then some token else none) := by
  cases h : pyTruthy token <;>
    simp [_http_publish, buildPayload, h, List.lookup]

/-- C10: a viewer whose token is the empty string behaves as one with
no token: the request body it builds is identical to the no-token body
and omits the `"token"` field, and establishment against an
already-running server with a matching state record reads and adopts
the state file's token, exactly as with `token=None`. -/
theorem empty_token_equiv_no_token (content : PyValue) (t : Nat → AttemptOutcome)
    (m : Nat) (host : String) (port : Nat) (env : InitEnv)
    (d : List (String × PyValue)) (tk : PyValue)
    (halive : env.initialAlive = true)
    (hfs : env.fs = .tryReturns (.dict d))
    (haddr : d.lookup "addr" = some (.str (host ++ ":" ++ toString port)))
    (htok : d.lookup "token" = some tk) :
    (_http_publish (.str "") content t m).payload =
      (_http_publish .pyNone content t m).payload ∧
    (_http_publish (.str "") content t m).payload.lookup "token" = none ∧
    (viewerInit host port (.str "") env).result = .ok tk ∧
    viewerInit host port (.str "") env = viewerInit host port .pyNone env := by
  have hemp : "".isEmpty = true := rfl
  refine ⟨rfl, rfl, ?_, ?_⟩
  · simp [viewerInit, halive, pyTruthy, hfs, hemp,
      adoptFromState_matching host port (.str "") d tk haddr htok]
  · simp [viewerInit, halive, pyTruthy, hfs, hemp,
      adoptFromState_matching host port (.str "") d tk haddr htok,
      adoptFromState_matching host port .pyNone d tk haddr htok]

theorem empty_token_equiv_no_token_witness :
    (_http_publish (.str "") (.str "c") (fun _ => .osError) 3).payload =
      (_http_publish .pyNone (.str "c") (fun _ => .osError) 3).payload ∧
    (_http_publish (.str "") (.str "c") (fun _ => .osError) 3).payload.lookup "token" =
      none ∧
    (viewerInit "127.0.0.1" 7878 (.str "")
      ⟨true, false, fun _ => false,
        .tryReturns (.dict [("addr", .str "127.0.0.1:7878"), ("token", .str "s3cret")])⟩).result =
      .ok (.str "s3cret") ∧
    viewerInit "127.0.0.1" 7878 (.str "")
        ⟨true, false, fun _ => false,
          .tryReturns (.dict [("addr", .str "127.0.0.1:7878"), ("token", .str "s3cret")])⟩ =
      viewerInit "127.0.0.1" 7878 .pyNone
        ⟨true, false, fun _ => false,
          .tryReturns (.dict [("addr", .str "127.0.0.1:7878"), ("token", .str "s3cret")])⟩ :=
  empty_token_equiv_no_token (.str "c") (fun _ => .osError) 3 "127.0.0.1" 7878
    ⟨true, false, fun _ => false,
      .tryReturns (.dict [("addr", .str "127.0.0.1:7878"), ("token", .str "s3cret")])⟩
    [("addr", .str "127.0.0.1:7878"), ("token", .str "s3cret")] (.str "s3cret")
    rfl rfl rfl rfl

/-- C1: with the default budget of 3 attempts, a transport whose first
two attempts fail retryably (connection failure, timeout, or 5xx) and
whose third returns a JSON body with an `"id"` field makes
`_http_publish` return that identifier after exactly 3 attempts, with
the two backoff sleeps 0.1s then 0.2s (strictly increasing) between
consecutive attempts and no sleep after the final one. -/
theorem publish_retry_then_success (token content : PyValue)
    (t : Nat → AttemptOutcome) (v ident : PyValue)
    (h0 : RetryableOutcome (t 0)) (h1 : RetryableOutcome (t 1))
    (h2 : t 2 = .body v) (hid : v.subscript "id" = .ok ident) :
    (_http_publish token content t).trace =
      { result := .ok ident, attempts := 3, sleeps := [100, 200] } := by
  have e2 : publishLoop t 3 1 2 (some (retryExc (t 1))) =
      { result := .ok ident, attempts := 3, sleeps := [] } := by
    simp [publishLoop, tryBlock, h2, hid]
  have step0 := publishLoop_retryable_step t 3 2 0 none h0
  have step1 := publishLoop_retryable_step t 3 1 1 (some (retryExc (t 0))) h1
  show publishLoop t 3 3 0 none = _
  rw [step0, step1, e2]
  norm_num

theorem publish_retry_then_success_witness :
    (_http_publish .pyNone (.str "c")
        (fun n => if n = 0 then .osError
          else if n = 1 then .httpError 503 "Service Unavailable"
          else .body (.dict [("id", .str "plot-1")]))).trace =
      { result := .ok (.str "plot-1"), attempts := 3, sleeps := [100, 200] } :=
  publish_retry_then_success .pyNone (.str "c") _
    (.dict [("id", .str "plot-1")]) (.str "plot-1")
    (by simp [RetryableOutcome]) (by norm_num [RetryableOutcome]) rfl rfl

/-- C2 (counterexample): the error raised on a first-attempt 4xx and
the error raised on retry exhaustion have the same Python class,
`ServerConnectionError` — the 4xx rejection is *not* a distinct,
identifiable error kind from the transport-failure error. -/
theorem publish_4xx_error_class_not_distinct :
    (_http_publish .pyNone (.str "c") (fun _ => .httpError 400 "Bad Request")).trace.errCls =
      some .cServerConnectionError ∧
    (_http_publish .pyNone (.str "c") (fun _ => .urlError)).trace.errCls =
      some .cServerConnectionError ∧
    (_http_publish .pyNone (.str "c") (fun _ => .httpError 400 "Bad Request")).trace.errCls =
      (_http_publish .pyNone (.str "c") (fun _ => .urlError)).trace.errCls :=
  ⟨rfl, rfl, rfl⟩

/-- C2 (amended): a first-attempt response with status in [400, 500)
makes `_http_publish` fail immediately after exactly 1 attempt with no
retry and no backoff sleep, raising `ServerConnectionError` with the
rejection message — the same exception class as on retry exhaustion,
distinguished only by its message text. -/
theorem publish_4xx_fails_immediately (token content : PyValue)
    (t : Nat → AttemptOutcome) (code : Nat) (reason : String)
    (hc : 400 ≤ code ∧ code < 500) (h0 : t 0 = .httpError code reason) :
    (_http_publish token content t).trace =
      { result := .error (.serverConnectionError
          ("Server rejected request: HTTP " ++ toString code ++ " " ++ reason)),
        attempts := 1, sleeps := [] } := by
  show publishLoop t 3 3 0 none = _
  simp [publishLoop, tryBlock, h0, hc]

theorem publish_4xx_fails_immediately_witness :
    (_http_publish .pyNone (.str "c") (fun _ => .httpError 403 "Forbidden")).trace =
      { result := .error (.serverConnectionError
          ("Server rejected request: HTTP " ++ toString 403 ++ " " ++ "Forbidden")),
        attempts := 1, sleeps := [] } :=
  publish_4xx_fails_immediately .pyNone (.str "c") (fun _ => .httpError 403 "Forbidden")
    403 "Forbidden" (by norm_num) rfl

/-- C7 (counterexample): a state file whose bytes are not valid UTF-8
makes `read_text()` raise `UnicodeDecodeError`, which the `except
(json.JSONDecodeError, OSError)` clause does not catch — the decode
error propagates to the caller instead of yielding absent. -/
theorem read_state_invalid_utf8_propagates :
    _read_server_state (.tryRaises .unicodeDecodeError) =
      .error .unicodeDecodeError := rfl

/-- C7 (amended): `_read_server_state` yields a parsed value or absent
(`None`) whenever the `try` body succeeds or raises only what the
`except` clause catches (a `JSONDecodeError` or an `OSError`, covering
missing, unreadable and corrupt-JSON files); a `UnicodeDecodeError`
from a non-UTF-8 file is not caught and propagates. -/
theorem read_state_soft_fail_on_caught (fs : StateFileFs)
    (h : ∀ e, fs = .tryRaises e →
      (isInstanceOf e.cls .cJSONDecodeError || isInstanceOf e.cls .cOSError) = true) :
    ∃ v, _read_server_state fs = .ok v := by
  cases fs with
  | missing => exact ⟨.pyNone, rfl⟩
  | tryRaises e => exact ⟨.pyNone, by simp [_read_server_state, h e rfl]⟩
  | tryReturns v => exact ⟨v, rfl⟩

theorem read_state_soft_fail_on_caught_witness :
    ∃ v, _read_server_state (.tryRaises .osError) = .ok v :=
  read_state_soft_fail_on_caught (.tryRaises .osError)
    (fun e he => by cases he; rfl)

/-- C8 (counterexample): a first-attempt 200 response whose JSON body
lacks the `"id"` field makes `_http_publish` raise `KeyError("id")`, a
built-in exception outside the library's `RileyViewerError` taxonomy —
not an identifiable protocol error of the library. -/
theorem publish_missing_id_raises_keyerror :
    (_http_publish .pyNone (.str "c")
        (fun _ => .body (.dict [("status", .str "ok")]))).trace.result =
      .error (.keyError "id") ∧
    (PyExc.keyError "id").isRileyViewerError = false :=
  ⟨rfl, rfl⟩

/-- C8 (amended): a 200 response whose JSON body lacks `"id"` makes
`result["id"]` raise `KeyError("id")` inside the `try` block; neither
`except` clause matches it, so it escapes `_http_publish` unclassified
after exactly 1 attempt, with no conversion into the library's error
taxonomy. -/
theorem publish_missing_id_keyerror_escapes (token content : PyValue)
    (t : Nat → AttemptOutcome) (d : List (String × PyValue))
    (h0 : t 0 = .body (.dict d)) (hid : d.lookup "id" = none) :
    (_http_publish token content t).trace =
      { result := .error (.keyError "id"), attempts := 1, sleeps := [] } ∧
    (PyExc.keyError "id").isRileyViewerError = false := by
  refine ⟨?_, rfl⟩
  show publishLoop t 3 3 0 none = _
  simp [publishLoop, tryBlock, h0, PyValue.subscript, hid]

theorem publish_missing_id_keyerror_escapes_witness :
    (_http_publish .pyNone (.str "c")
        (fun _ => .body (.dict [("ok", .str "true")]))).trace =
      { result := .error (.keyError "id"), attempts := 1, sleeps := [] } ∧
    (PyExc.keyError "id").isRileyViewerError = false :=
  publish_missing_id_keyerror_escapes .pyNone (.str "c")
    (fun _ => .body (.dict [("ok", .str "true")])) [("ok", .str "true")] rfl rfl

end RileyViewer
